import Mathlib

/-!
Verification development for the Smart Queue System (`app.py`).

The program keeps two SQLite tables, `patients` and `queue`, and mutates them
through a handful of straight-line CRUD functions.  We embed the store as a
pure `State` value and each flow function as a state transformer.  Wall-clock
reads (`datetime.datetime.now()`) become an explicit `now : Nat` parameter,
measured in microseconds; the second-resolution `"%Y-%m-%d %H:%M:%S"` strings
stored in `entry_time` / `exit_time` are modelled by their underlying second
count `now / 1000000` (the strftime rendering is injective on seconds, so
equality and set/unset questions are preserved).
-/

/-- Row of the `patients` table: id (AUTOINCREMENT primary key), name parts,
age, gender, vitals (`weight REAL`, `height REAL`, `bp TEXT`) and the
free-text `condition`.  Columns not supplied at INSERT time are NULL,
modelled with `Option`. -/
structure Patient where
  id : Nat
  first_name : String
  middle_name : String
  surname : String
  age : Int
  gender : String
  weight : Option Rat
  height : Option Rat
  bp : Option String
  condition : Option String
deriving DecidableEq

/-- Row of the `queue` table: queue_id (AUTOINCREMENT primary key),
patient_id foreign key, ticket_number, entry/exit timestamps (NULL until
set), location, status and destination strings. -/
structure QueueRow where
  queue_id : Nat
  patient_id : Nat
  ticket_number : String
  entry_time : Option Nat
  exit_time : Option Nat
  location : String
  status : String
  destination : String
deriving DecidableEq

/-- The whole store: both tables plus the next AUTOINCREMENT value of each
primary key (SQLite hands out consecutive rowids starting at 1). -/
structure State where
  patients : List Patient
  queue : List QueueRow
  next_patient_id : Nat
  next_queue_id : Nat
deriving DecidableEq

/-- Fresh database produced by the CREATE TABLE statements. -/
def emptyState : State := ⟨[], [], 1, 1⟩

/-- `generate_ticket` returns `"T" + datetime.now().strftime('%y%m%d%H%M%S%f')[-12:]`.
The formatted string is 18 characters (yymmddHHMMSS plus 6 microsecond
digits); keeping the last 12 drops the date part, so the suffix is exactly
the microsecond count within the current day.  Two clock readings yield the
same code precisely when they agree modulo a day, which the model reproduces
by rendering `now % 86400000000`. -/
def generate_ticket (now : Nat) : String :=
  "T" ++ toString (now % 86400000000)

/-- `add_patient` INSERTs a row with the five demographic fields; the vitals
and condition columns stay NULL.  Returns `c.lastrowid`, the fresh id. -/
def add_patient (s : State) (fn mn sn : String) (age : Int) (gender : String) :
    State × Nat :=
  let pid := s.next_patient_id
  ({ s with
      patients := s.patients ++ [⟨pid, fn, mn, sn, age, gender, none, none, none, none⟩],
      next_patient_id := pid + 1 }, pid)

/-- `update_patient` overwrites every stored field of the row whose id
matches (`UPDATE patients SET ... WHERE id=?`); None values are allowed and
stored as NULL. -/
def update_patient (s : State) (pid : Nat) (fn mn sn : String) (age : Int)
    (gender : String) (weight height : Option Rat) (bp condition : Option String) :
    State :=
  { s with
      patients := s.patients.map (fun p =>
        if p.id = pid then
          { p with first_name := fn, middle_name := mn, surname := sn,
                   age := age, gender := gender, weight := weight,
                   height := height, bp := bp, condition := condition }
        else p) }

/-- `add_to_queue` generates a ticket code, stamps `entry_time` with the
current second, and INSERTs one queue row with location `"Entry"`, status
`"waiting"` and destination `destination or "Triage"`.  Returns the ticket
code. -/
def add_to_queue (s : State) (now : Nat) (patient_id : Nat)
    (destination : Option String) : State × String :=
  let ticket := generate_ticket now
  ({ s with
      queue := s.queue ++
        [⟨s.next_queue_id, patient_id, ticket, some (now / 1000000), none,
          "Entry", "waiting", destination.getD "Triage"⟩],
      next_queue_id := s.next_queue_id + 1 }, ticket)

/-- `update_triage` writes the vitals onto the patient row
(`UPDATE patients SET weight=?, height=?, bp=? WHERE id=?`) and then runs
`UPDATE queue SET location='Triage', destination='Consultation'
WHERE patient_id=?` — keyed on patient_id alone, with no status or location
filter. -/
def update_triage (s : State) (patient_id : Nat) (weight height : Rat)
    (bp : String) : State :=
  { s with
      patients := s.patients.map (fun p =>
        if p.id = patient_id then
          { p with weight := some weight, height := some height, bp := some bp }
        else p),
      queue := s.queue.map (fun q =>
        if q.patient_id = patient_id then
          { q with location := "Triage", destination := "Consultation" }
        else q) }

/-- `update_doctor` writes the condition onto the patient row and then runs
`UPDATE queue SET location='Doctor', destination=?, status='waiting'
WHERE patient_id=?` — again keyed on patient_id alone, with no filter on the
row's current status, and without touching `exit_time`. -/
def update_doctor (s : State) (patient_id : Nat) (condition destination : String) :
    State :=
  { s with
      patients := s.patients.map (fun p =>
        if p.id = patient_id then { p with condition := some condition } else p),
      queue := s.queue.map (fun q =>
        if q.patient_id = patient_id then
          { q with location := "Doctor", destination := destination,
                   status := "waiting" }
        else q) }

/-- `mark_done_by_queue` runs `UPDATE queue SET location=?, status='done',
exit_time=? WHERE queue_id=?` unconditionally: there is no read of the
current status and no guard against the row being already done. -/
def mark_done_by_queue (s : State) (now : Nat) (queue_id : Nat) (sec : String) :
    State :=
  { s with
      queue := s.queue.map (fun q =>
        if q.queue_id = queue_id then
          { q with location := sec, status := "done", exit_time := some (now / 1000000) }
        else q) }

/-- The TV-display query (`next_df`): among rows with `status='waiting'`,
`ORDER BY q.queue_id ASC LIMIT 1`.  Modelled as the minimum-queue_id element
of the filtered list (the LEFT JOIN onto patients only adds display columns
and cannot change which queue row is selected). -/
def minByQueueId : List QueueRow → Option QueueRow
  | [] => none
  | r :: rs =>
    match minByQueueId rs with
    | none => some r
    | some m => if r.queue_id ≤ m.queue_id then some r else some m

/-- The row the waiting-room display serves next, if any. -/
def next_df (s : State) : Option QueueRow :=
  minByQueueId (s.queue.filter (fun r => r.status == "waiting"))

-- ---------------------------------------------------------------------------
-- Concrete runs used by the counterexample/bug theorems
-- ---------------------------------------------------------------------------

/-- One registered patient holding one ticket issued at clock 1000000 µs. -/
def oneTicketState : State :=
  (add_to_queue (add_patient emptyState "Jane" "" "Doe" 30 "Female").1 1000000 1 none).1

/-- The same store after Pharmacy marks queue row 1 done at second 2. -/
def oneDoneState : State := mark_done_by_queue oneTicketState 2000000 1 "Pharmacy"

/-- A second completion call on the already-done row, at second 3. -/
def doubleDoneState : State := mark_done_by_queue oneDoneState 3000000 1 "Pharmacy"

/-- C1.  A second `mark_done_by_queue` on an already-Done ticket does not
fail with `AlreadyDone` (the function is total and performs no status read);
it silently rewrites the row, in particular the completion timestamp moves
from second 2 to second 3, so the store state is changed. -/
theorem double_completion_rewrites_state :
    oneDoneState.queue.map QueueRow.exit_time = [some 2] ∧
    doubleDoneState.queue.map QueueRow.exit_time = [some 3] ∧
    doubleDoneState ≠ oneDoneState := by
  refine ⟨rfl, rfl, ?_⟩
  decide

/-- Two registered patients and no tickets yet. -/
def twoPatientState : State :=
  (add_patient (add_patient emptyState "Amina" "" "Odhiambo" 20 "Female").1
    "Brian" "" "Kariuki" 25 "Male").1

/-- C2.  Two `add_to_queue` calls issued at the same clock reading (same
microsecond) return the same ticket code: the code is a pure function of the
wall clock, so rapid consecutive issuances collide and the returned codes
are not pairwise distinct. -/
theorem ticket_codes_collide_same_clock :
    (add_to_queue twoPatientState 5000000 1 none).2 =
      (add_to_queue (add_to_queue twoPatientState 5000000 1 none).1 5000000 2 none).2 := by
  rfl

/-- Patient 1 put through `add_to_queue` twice with no completion between. -/
def doubleIssueState : State :=
  (add_to_queue (add_to_queue (add_patient emptyState "Ezra" "" "Mwangi" 40 "Male").1
    1000000 1 none).1 2000000 1 none).1

/-- C3.  `add_to_queue` performs no check for an existing active ticket:
calling it twice for patient 1 leaves two rows with status `"waiting"` for
that patient, violating the at-most-one-active-ticket-per-patient
invariant. -/
theorem duplicate_waiting_tickets_per_patient :
    (doubleIssueState.queue.filter
      (fun r => r.patient_id == 1 && r.status == "waiting")).length = 2 := by
  rfl

/-- Doctor decision recorded for a patient whose only ticket is already
done: `update_doctor` matches the row by patient_id alone. -/
def doctorAfterDoneState : State := update_doctor oneDoneState 1 "flu" "Lab"

/-- C4.  `update_doctor` resets the row's status to `"waiting"` without
clearing `exit_time`, so after it runs on a patient whose ticket was Done
the store holds a row with status `"waiting"` and a set completion
timestamp — the "exit_time set iff status Done" invariant is not preserved
by every operation. -/
theorem update_doctor_breaks_exit_time_invariant :
    doctorAfterDoneState.queue.map (fun r => (r.status, r.exit_time)) =
      [("waiting", some 2)] := by
  rfl

/-- Doctor decision with a destination outside {Pharmacy, Lab, Payment}. -/
def invalidDestState : State := update_doctor oneTicketState 1 "flu" "Cafeteria"

/-- C5.  `update_doctor` validates nothing: with destination `"Cafeteria"`
it does not fail with `InvalidDestination` (the function is total); it
writes the bogus destination onto the ticket, moves the location to
`"Doctor"`, and stores the condition on the patient — the state is
mutated. -/
theorem update_doctor_accepts_invalid_destination :
    invalidDestState.queue.map QueueRow.destination = ["Cafeteria"] ∧
    invalidDestState.queue.map QueueRow.location = ["Doctor"] ∧
    invalidDestState.patients.map Patient.condition = [some "flu"] ∧
    invalidDestState ≠ oneTicketState := by
  refine ⟨rfl, rfl, rfl, ?_⟩
  decide

/-- Triage recorded for a patient with no active ticket: the only ticket is
already done at Pharmacy. -/
def triageAfterDoneState : State := update_triage oneDoneState 1 60 165 "120/80"

/-- C6.  `update_triage` performs no active-ticket check: for a patient
whose only ticket is Done at Pharmacy it does not fail with
`NoActiveTicket`; it writes the vitals onto the patient record and drags the
done row's location back to `"Triage"` — the state is mutated. -/
theorem update_triage_mutates_without_active_ticket :
    triageAfterDoneState.patients.map Patient.weight = [some 60] ∧
    triageAfterDoneState.queue.map (fun r => (r.location, r.status)) =
      [("Triage", "done")] ∧
    triageAfterDoneState ≠ oneDoneState := by
  refine ⟨rfl, rfl, ?_⟩
  decide

-- ---------------------------------------------------------------------------
-- C7: the display-feed query returns the minimum-queue_id waiting row
-- ---------------------------------------------------------------------------

/-- Helper: the fold over a list of queue rows returns `none` only on the
empty list. -/
theorem minByQueueId_eq_none (l : List QueueRow) :
    minByQueueId l = none ↔ l = [] := by
  cases l with
  | nil => simp [minByQueueId]
  | cons r rs =>
    cases hmin : minByQueueId rs with
    | none => simp [minByQueueId, hmin]
    | some m =>
      simp only [minByQueueId, hmin]
      constructor
      · intro h
        by_cases hle : r.queue_id ≤ m.queue_id
        · rw [if_pos hle] at h; exact absurd h (by simp)
        · rw [if_neg hle] at h; exact absurd h (by simp)
      · intro h; exact absurd h (by simp)

/-- Helper: a row returned by the fold belongs to the list and has the least
queue_id among its elements. -/
theorem minByQueueId_spec (l : List QueueRow) :
    ∀ m, minByQueueId l = some m →
      m ∈ l ∧ ∀ r ∈ l, m.queue_id ≤ r.queue_id := by
  induction l with
  | nil => intro m h; simp [minByQueueId] at h
  | cons r rs ih =>
    intro m h
    cases hmin : minByQueueId rs with
    | none =>
      have hrs : rs = [] := (minByQueueId_eq_none rs).mp hmin
      subst hrs
      simp only [minByQueueId] at h
      obtain rfl : r = m := by simpa using h
      exact ⟨List.mem_cons_self _ _, by intro x hx; simp at hx; subst hx; exact Nat.le_refl _⟩
    | some mr =>
      simp only [minByQueueId, hmin] at h
      obtain ⟨hmem, hall⟩ := ih mr hmin
      by_cases hle : r.queue_id ≤ mr.queue_id
      · rw [if_pos hle] at h
        obtain rfl := Option.some.inj h
        refine ⟨List.mem_cons_self _ _, ?_⟩
        intro x hx
        rcases List.mem_cons.mp hx with rfl | hx'
        · exact Nat.le_refl _
        · exact Nat.le_trans hle (hall x hx')
      · rw [if_neg hle] at h
        obtain rfl := Option.some.inj h
        refine ⟨List.mem_cons_of_mem _ hmem, ?_⟩
        intro x hx
        rcases List.mem_cons.mp hx with rfl | hx'
        · exact Nat.le_of_lt (Nat.lt_of_not_le hle)
        · exact hall x hx'

/-- C7.  For every store state the display query `next_df` is empty exactly
when no queue row is waiting, and otherwise returns a waiting row whose
queue_id (the creation sequence) is least among all waiting rows.  The
queue schema of this revision has no priority column, so every ticket
carries the same (empty) priority and the priority-adjusted creation order
coincides with the queue_id order. -/
theorem next_df_returns_min_waiting (s : State) :
    (next_df s = none ↔ ∀ r ∈ s.queue, r.status ≠ "waiting") ∧
    ∀ t, next_df s = some t →
      t ∈ s.queue ∧ t.status = "waiting" ∧
      ∀ r ∈ s.queue, r.status = "waiting" → t.queue_id ≤ r.queue_id := by
  constructor
  · rw [next_df, minByQueueId_eq_none, List.filter_eq_nil_iff]
    simp
  · intro t ht
    rw [next_df] at ht
    obtain ⟨hmem, hall⟩ := minByQueueId_spec _ t ht
    rw [List.mem_filter] at hmem
    obtain ⟨hq, hw⟩ := hmem
    refine ⟨hq, by simpa using hw, ?_⟩
    intro r hr hrs
    exact hall r (List.mem_filter.mpr ⟨hr, by simp [hrs]⟩)

/-- One patient with three tickets issued in order; Pharmacy has marked the
first one done, so rows 2 and 3 are waiting. -/
def displayDemoState : State :=
  mark_done_by_queue
    ((add_to_queue
      ((add_to_queue
        ((add_to_queue (add_patient emptyState "Lena" "" "Otieno" 33 "Female").1
          1000000 1 none).1) 2000000 1 none).1) 3000000 1 none).1)
    4000000 1 "Pharmacy"

/-- The earliest still-waiting row of `displayDemoState`. -/
def displayDemoRow : QueueRow :=
  ⟨2, 1, "T2000000", some 2, none, "Entry", "waiting", "Triage"⟩

/-- Witness for C7 at a concrete store: the display query picks row 2, a
waiting row of the queue. -/
theorem next_df_returns_min_waiting_witness :
    displayDemoRow ∈ displayDemoState.queue ∧ displayDemoRow.status = "waiting" :=
  ⟨((next_df_returns_min_waiting displayDemoState).2 displayDemoRow (by decide)).1,
   ((next_df_returns_min_waiting displayDemoState).2 displayDemoRow (by decide)).2.1⟩

-- ---------------------------------------------------------------------------
-- C8: ticket creation
-- ---------------------------------------------------------------------------

/-- C8.  For a registered patient, `add_to_queue` with no explicit
destination appends exactly one new queue row — location `"Entry"`, status
`"waiting"`, destination defaulted to `"Triage"`, entry timestamp stamped
with the current second, exit timestamp NULL — leaves the patients table
unchanged, and returns the generated ticket code. -/
theorem add_to_queue_creates_single_entry_ticket (s : State) (now pid : Nat)
    (hpid : ∃ p ∈ s.patients, p.id = pid) :
    (add_to_queue s now pid none).1.patients = s.patients ∧
    (add_to_queue s now pid none).1.queue = s.queue ++
      [⟨s.next_queue_id, pid, generate_ticket now, some (now / 1000000), none,
        "Entry", "waiting", "Triage"⟩] ∧
    (add_to_queue s now pid none).2 = generate_ticket now :=
  ⟨rfl, rfl, rfl⟩

/-- One registered patient, no tickets yet. -/
def kioskDemoState : State := (add_patient emptyState "Jane" "" "Doe" 30 "Female").1

/-- Witness for C8: issuing a ticket for patient 1 at clock 7000000 µs
appends the expected single Entry/waiting/Triage row. -/
theorem add_to_queue_creates_single_entry_ticket_witness :
    (add_to_queue kioskDemoState 7000000 1 none).1.queue =
      kioskDemoState.queue ++
        [⟨kioskDemoState.next_queue_id, 1, generate_ticket 7000000,
          some (7000000 / 1000000), none, "Entry", "waiting", "Triage"⟩] :=
  (add_to_queue_creates_single_entry_ticket kioskDemoState 7000000 1
    ⟨⟨1, "Jane", "", "Doe", 30, "Female", none, none, none, none⟩, by decide, rfl⟩).2.1

-- ---------------------------------------------------------------------------
-- C10: triage and doctor updates are keyed on patient_id alone
-- ---------------------------------------------------------------------------

/-- C10.  Both `update_triage` and `update_doctor` run their queue UPDATE
with `WHERE patient_id=?` only, so a single call rewrites every queue row of
that patient at once: each such row reappears with the new location and
destination, `update_doctor` additionally forcing status back to
`"waiting"`.  Neither statement touches `exit_time`, so a previously done
row keeps its completion timestamp (visible in the record updates below,
which leave `exit_time` at the old row's value). -/
theorem patient_keyed_updates_touch_all_rows (s : State) (pid : Nat)
    (w hgt : Rat) (bp cond dest : String) (r : QueueRow)
    (hr : r ∈ s.queue) (hp : r.patient_id = pid) :
    { r with location := "Triage", destination := "Consultation" } ∈
      (update_triage s pid w hgt bp).queue ∧
    { r with location := "Doctor", destination := dest, status := "waiting" } ∈
      (update_doctor s pid cond dest).queue :=
  ⟨List.mem_map.mpr ⟨r, hr, by simp [hp]⟩,
   List.mem_map.mpr ⟨r, hr, by simp [hp]⟩⟩

/-- One patient holding two tickets, the first already marked done at
Pharmacy (exit second 3), the second still waiting. -/
def multiTicketState : State :=
  mark_done_by_queue
    ((add_to_queue
      ((add_to_queue (add_patient emptyState "Grace" "" "Hassan" 50 "Female").1
        1000000 1 none).1) 2000000 1 none).1)
    3000000 1 "Pharmacy"

/-- The done row of `multiTicketState`. -/
def doneRow : QueueRow :=
  ⟨1, 1, "T1000000", some 1, some 3, "Pharmacy", "done", "Triage"⟩

/-- Witness for C10: triage and doctor calls for patient 1 rewrite even the
already-done row 1 — the doctor call leaves it status `"waiting"` with its
completion timestamp still set. -/
theorem patient_keyed_updates_touch_all_rows_witness :
    { doneRow with location := "Triage", destination := "Consultation" } ∈
      (update_triage multiTicketState 1 60 165 "120/80").queue ∧
    { doneRow with location := "Doctor", destination := "Lab", status := "waiting" } ∈
      (update_doctor multiTicketState 1 "flu" "Lab").queue :=
  patient_keyed_updates_touch_all_rows multiTicketState 1 60 165 "120/80" "flu" "Lab"
    doneRow (by decide) rfl

-- ---------------------------------------------------------------------------
-- C9: the "Save Uploaded Data" loop
-- ---------------------------------------------------------------------------

/-- A spreadsheet cell as pandas hands it to the loop: a number or a raw
string.  An absent / NaN cell is modelled as `none` at the row level. -/
inductive Cell where
  | num (n : Int)
  | str (s : String)
deriving DecidableEq

/-- One uploaded row.  The loop reads the columns `name`, `first_name`,
`middle_name`, `surname`, `age`, `gender`, `weight`, `height`, `bp`,
`condition`; any of them may be missing. -/
structure CsvRow where
  name : Option String
  first_name : Option String
  middle_name : Option String
  surname : Option String
  age : Option Cell
  gender : Option String
  weight : Option Rat
  height : Option Rat
  bp : Option String
  condition : Option String
deriving DecidableEq

/-- `split_fullname`: strip, split on whitespace; one part is the first
name, two parts are first and surname, three or more put everything between
the first and last part into the middle name. -/
def split_fullname (fullname : String) : String × String × String :=
  let parts := (fullname.trim.splitOn " ").filter (fun p => p != "")
  match parts with
  | [] => ("", "", "")
  | [a] => (a, "", "")
  | [a, b] => (a, "", b)
  | a :: rest => (a, String.intercalate " " rest.dropLast, rest.getLastD "")

/-- Decimal digits of an integer literal: every character must be a digit,
accumulating the value; any other character makes the literal invalid. -/
def parseDigitsAux : List Char → Nat → Option Nat
  | [], acc => some acc
  | c :: cs, acc =>
    if c.isDigit then parseDigitsAux cs (10 * acc + (c.toNat - 48)) else none

/-- Integer literal as Python's `int(str)` accepts it: an optional sign
followed by at least one decimal digit. -/
def parseIntLit (s : String) : Option Int :=
  match s.data with
  | [] => none
  | '-' :: cs =>
    if cs = [] then none else (parseDigitsAux cs 0).map (fun n => -(n : Int))
  | cs => (parseDigitsAux cs 0).map (fun n => (n : Int))

/-- Python's `int(v)` on a cell value: a number converts, a string converts
only when it is a valid integer literal, otherwise `ValueError` is raised. -/
def parseIntCell : Cell → Except String Int
  | .num n => .ok n
  | .str s =>
    match parseIntLit s with
    | some n => .ok n
    | none => .error ("invalid literal for int: " ++ s)

/-- One iteration of the upload loop (app.py lines 495-512): derive the name
parts (splitting a full `name` column when `first_name` is absent), convert
the age with `int(...)` — which can raise —, then either update the patient
matched by the (first_name, surname, age) triple or insert a new one.  The
raised `ValueError` is modelled as the `Except.error` case. -/
def saveRow (s : State) (row : CsvRow) : Except String State := do
  let (fn, mn, sn) :=
    match row.name, row.first_name with
    | some nm, none => split_fullname nm
    | _, _ => (row.first_name.getD "", row.middle_name.getD "", row.surname.getD "")
  let age ← match row.age with
    | none => pure 0
    | some v => parseIntCell v
  let gender := row.gender.getD ""
  match s.patients.find? (fun p => p.first_name == fn && p.surname == sn && p.age == age) with
  | some p =>
    pure (update_patient s p.id fn mn sn age gender row.weight row.height row.bp row.condition)
  | none => pure (add_patient s fn mn sn age gender).1

/-- The `for _, row in new_df.iterrows():` loop of the "Save Uploaded Data"
button.  Each iteration commits its own INSERT/UPDATE; there is no per-row
try/except, so an exception raised by a row propagates out of the handler:
earlier rows stay committed (the error value carries that state) and the
remaining rows are never processed.  The code produces no
created/updated/rejected report of any kind. -/
def saveUploadedData : State → List CsvRow → Except (State × String) State
  | s, [] => Except.ok s
  | s, row :: rest =>
    match saveRow s row with
    | Except.ok s1 => saveUploadedData s1 rest
    | Except.error e => Except.error (s, e)

/-- First uploaded row: well-formed, a new patient. -/
def importRow1 : CsvRow :=
  ⟨none, some "Alice", none, some "Smith", some (.num 30), some "Female",
   none, none, none, none⟩

/-- Second uploaded row: non-numeric age cell. -/
def importRow2 : CsvRow :=
  ⟨none, some "Bob", none, some "Jones", some (.str "abc"), some "Male",
   none, none, none, none⟩

/-- Third uploaded row: well-formed, a new patient. -/
def importRow3 : CsvRow :=
  ⟨none, some "Carol", none, some "White", some (.num 22), some "Female",
   none, none, none, none⟩

/-- C9.  Against an empty store, a 3-row batch whose second row carries a
non-numeric age does NOT keep going: row 1 is created, the `int` conversion
on row 2 raises and aborts the loop, row 3 is never created, and no
created/updated/rejected report exists — the result is the propagated error
together with a store holding exactly one new patient, not two. -/
theorem upload_save_aborts_on_bad_row :
    saveUploadedData emptyState [importRow1, importRow2, importRow3] =
      Except.error
        (⟨[⟨1, "Alice", "", "Smith", 30, "Female", none, none, none, none⟩], [], 2, 1⟩,
         "invalid literal for int: abc") := by
  rfl
